import Mathlib

/-!
Verification of the SBMS0 battery frame decoder (`etc/dbus-serialbattery/sbms0.py`).

The source decodes 59-character telemetry frames from an SBMS0 battery
management unit: a base-91 field codec (`dcmp`), a frame interpreter
(`Sbms0.process_status_data`) that extracts cell voltages, state of charge,
current, temperatures and status flags, and derives tiered protection levels.

Numbers are modelled with `ℚ` where the Python source uses `float` (every
claim here is decided by exact small-denominator arithmetic, never by binary
rounding behaviour), characters by their codes as `ℕ`, and a frame by a
`List ℕ` of character codes.  Python's in-place mutation of `self` is
modelled by explicit state passing.  A Python exception escaping
`process_status_data` is modelled by `Except.error` carrying the state as
mutated up to the raise point (assignments before the raising line persist
in the source).
-/

namespace Sbms0

/-- Field codec `dcmp(comp, pos, size)` translated from the source: the loop
`for i in range(size): decomp += (ord(comp[(pos + size - 1) - i]) - 35) * pow(91, i)`.
Characters are codes (`ℕ`); out-of-range indices (which would raise
`IndexError` in Python, never reached under the caller's bounds) read
as code 0. -/
def dcmp (comp : List ℕ) (pos size : ℕ) : ℤ :=
  (List.range size).foldl
    (fun decomp i => decomp + ((comp.getD (pos + size - 1 - i) 0 : ℤ) - 35) * 91 ^ i) 0

/-- Constant `BATTERY_CELL_BALANCE_ALARM = 100  # mV` from the source. -/
def BATTERY_CELL_BALANCE_ALARM : ℚ := 100

/-- Constant `BATTERY_CELL_BALANCE_WARN = 50    # mV` from the source. -/
def BATTERY_CELL_BALANCE_WARN : ℚ := 50

/-- Constant `BATTERY_SOC_ALARM = 10` from the source. -/
def BATTERY_SOC_ALARM : ℤ := 10

/-- Constant `BATTERY_SOC_WARN = 20` from the source. -/
def BATTERY_SOC_WARN : ℤ := 20

/-- Constant `BATTERY_TEMP_HIGH_ALARM = 40` from the source. -/
def BATTERY_TEMP_HIGH_ALARM : ℚ := 40

/-- Constant `SBMS_CELL_COUNT_MAX = 8` from the source. -/
def SBMS_CELL_COUNT_MAX : ℕ := 8

/-- The 15 status code names `SBMS_STATUS_CODES` from the source, in order. -/
def SBMS_STATUS_CODES : List String :=
  ["OV", "OVLK", "UV", "UVLK", "IOT", "COC", "DOC", "DSC",
   "CELF", "OPEN", "LVC", "ECCF", "CFET", "EOC", "DFET"]

/-- Translation of Python `bool(flags & pow(2, i))` for an arbitrary-precision
integer `flags`: bit `i` in two's-complement reading, i.e. the floor-shift
`flags >> i` taken mod 2 (Python `%` on a positive modulus agrees with
`Int.emod`). -/
def statusFlag (flags : ℤ) (i : ℕ) : Bool :=
  decide (Int.emod (Int.fdiv flags (2 ^ i)) 2 = 1)

/-- Translation of Python `round(x, 3)` on exact values: round `x` to 3
decimal places.  (Python rounds binary floats half-to-even; no claim below
evaluates at a half-thousandth tie, so `round` is used.) -/
def round3 (x : ℚ) : ℚ := (round (x * 1000) : ℤ) / 1000

/-- Models Python `float(chr(c) + str(mag))` as used at
`self.current = float(line[28] + str(dcmp(line, 29, 3))) / 1000.0`:
the single character of code `c` is concatenated with the decimal rendering
of the integer `mag` and parsed as a number; `none` models `float` raising
`ValueError`.  `Nat.log 10 m + 1` is the number of digits of `str(m)`.
Cases: `'-'` (45) negates, `'+'` (43), space (32) and tab (9) are
sign/whitespace prefixes, a digit (48..57) becomes the leading decimal
digit, `'.'` (46) makes the digits a pure fraction; anything else fails.
A negative `mag` renders with its own minus sign, which only parses after
leading whitespace. -/
def parseSigned (c : ℕ) (mag : ℤ) : Option ℚ :=
  if 0 ≤ mag then
    if c = 45 then some (-(mag : ℚ))
    else if c = 43 ∨ c = 32 ∨ c = 9 then some (mag : ℚ)
    else if 48 ≤ c ∧ c ≤ 57 then
      some (((c - 48 : ℕ) : ℚ) * (10 : ℚ) ^ (Nat.log 10 mag.toNat + 1) + (mag : ℚ))
    else if c = 46 then some ((mag : ℚ) / (10 : ℚ) ^ (Nat.log 10 mag.toNat + 1))
    else none
  else if c = 32 ∨ c = 9 then some (mag : ℚ) else none

/-- Protection record.  Modelled from the spec: the `Protection` class lives
in `battery.py`, which is not part of the sources; the spec's §4.2 table
names these twelve categories, each a tier in {0, 1, 2}. -/
structure Protection where
  voltage_high : ℤ
  voltage_low : ℤ
  voltage_cell_low : ℤ
  soc_low : ℤ
  current_over : ℤ
  current_under : ℤ
  cell_imbalance : ℤ
  internal_failure : ℤ
  temp_high_charge : ℤ
  temp_low_charge : ℤ
  temp_high_discharge : ℤ
  temp_low_discharge : ℤ
  deriving Repr, DecidableEq

/-- Interpreter state.  Modelled from the spec: the `Battery` base class
(`battery.py`) holding these fields is not part of the sources; §6 lists the
consumer-visible fields.  A cell slot's voltage is `Option ℚ`
(`none` = never written, the fresh `Cell(False)` state); an unset cell count
(Python `None` or `0`, both falsy in `if not self.cell_count`) is `0`. -/
structure SbmsState where
  cell_count : ℕ
  cells : List (Option ℚ)
  soc : ℤ
  voltage : ℚ
  current : ℚ
  temp1 : ℚ
  temp2 : ℚ
  charge_fet : Bool
  discharge_fet : Bool
  protection : Protection
  hardware_version : String
  deriving Repr, DecidableEq

/-- Modelled from the spec: `Battery.get_max_cell_voltage` is not in the
sources; §4.2 says "Cell-voltage delta = max(all cell voltages) − min(all
cell voltages)".  Maximum of the recorded cell voltages (0 when none is
recorded). -/
def get_max_cell_voltage (cells : List (Option ℚ)) : ℚ :=
  match cells.filterMap id with
  | [] => 0
  | v :: vs => vs.foldl max v

/-- Modelled from the spec: `Battery.get_min_cell_voltage` is not in the
sources; minimum of the recorded cell voltages (0 when none is recorded). -/
def get_min_cell_voltage (cells : List (Option ℚ)) : ℚ :=
  match cells.filterMap id with
  | [] => 0
  | v :: vs => vs.foldl min v

/-- Modelled from the spec: `Battery.get_max_temp` is not in the sources;
§4.2's rules use `max(temp1, temp2)`. -/
def get_max_temp (t1 t2 : ℚ) : ℚ := max t1 t2

/-- Modelled from the spec: `Battery.get_min_temp` is not in the sources;
§4.2's rules use `min(temp1, temp2)`. -/
def get_min_temp (t1 t2 : ℚ) : ℚ := min t1 t2

/-- Constant `LENGTH_FIXED = 59` from the source. -/
def LENGTH_FIXED : ℕ := 59

/-- The list comprehension of source lines 118-119:
`[float(dcmp(line, 8 + cell * 2, 2) / 1000.0) for cell in range(SBMS_CELL_COUNT_MAX)]`. -/
def cellVoltages (line : List ℕ) : List ℚ :=
  (List.range SBMS_CELL_COUNT_MAX).map
    fun cell => ((dcmp line (8 + cell * 2) 2 : ℤ) : ℚ) / 1000

/-- Translation of `Sbms0.process_status_data(self, line)` (source lines
114-157).  `Except.ok (b, s)` models a normal return of `b` with the state
mutated to `s`; `Except.error s` models the `ValueError` raised by `float`
at line 134 escaping, with the fields assigned before that line (cells,
cell count, soc, voltage) already mutated. -/
def process_status_data (s : SbmsState) (line : List ℕ) :
    Except SbmsState (Bool × SbmsState) :=
  if line.length ≠ LENGTH_FIXED then .ok (false, s)
  else
    let cell_voltages : List ℚ := cellVoltages line
    let cell_count : ℕ :=
      if s.cell_count = 0 then (cell_voltages.filter (fun v => 0 < v)).length
      else s.cell_count
    let cells0 : List (Option ℚ) :=
      if s.cell_count = 0 then List.replicate SBMS_CELL_COUNT_MAX none else s.cells
    let cells : List (Option ℚ) :=
      List.zipWith (fun c v => if 0 < v then some v else c) cells0 cell_voltages
    let cell_voltage_delta : ℚ := get_max_cell_voltage cells - get_min_cell_voltage cells
    let flags : ℤ := dcmp line 56 3
    let soc : ℤ := dcmp line 6 2
    let voltage : ℚ := round3 cell_voltages.sum
    match parseSigned (line.getD 28 0) (dcmp line 29 3) with
    | none =>
      .error { s with cells := cells, cell_count := cell_count,
                      soc := soc, voltage := voltage }
    | some cur =>
      let current : ℚ := cur / 1000
      let temp1 : ℚ := ((dcmp line 24 2 - 450 : ℤ) : ℚ) / 10
      let temp2 : ℚ := ((dcmp line 26 2 - 450 : ℤ) : ℚ) / 10
      .ok (true,
        { cell_count := cell_count
          cells := cells
          soc := soc
          voltage := voltage
          current := current
          temp1 := temp1
          temp2 := temp2
          charge_fet := statusFlag flags 12
          discharge_fet := statusFlag flags 14
          protection :=
            { voltage_high := if statusFlag flags 1 then 2 else 0
              voltage_low := if statusFlag flags 3 then 2 else 0
              voltage_cell_low := if statusFlag flags 10 then 2 else 0
              soc_low :=
                if soc < BATTERY_SOC_ALARM then 2
                else if soc < BATTERY_SOC_WARN then 1 else 0
              current_over := if statusFlag flags 5 then 2 else 0
              current_under := if statusFlag flags 6 then 2 else 0
              cell_imbalance :=
                if BATTERY_CELL_BALANCE_ALARM < cell_voltage_delta then 2
                else if BATTERY_CELL_BALANCE_WARN < cell_voltage_delta then 1 else 0
              internal_failure :=
                if statusFlag flags 11 ∨ statusFlag flags 9 then 2 else 0
              temp_high_charge :=
                if statusFlag flags 4 ∨
                    (0 < current ∧ BATTERY_TEMP_HIGH_ALARM ≤ get_max_temp temp1 temp2)
                then 2 else 0
              temp_low_charge :=
                if get_min_temp temp1 temp2 ≤ BATTERY_TEMP_HIGH_ALARM then 2 else 0
              temp_high_discharge :=
                if statusFlag flags 4 ∨
                    (0 < current ∧ BATTERY_TEMP_HIGH_ALARM ≤ get_max_temp temp1 temp2)
                then 2 else 0
              temp_low_discharge :=
                if get_min_temp temp1 temp2 ≤ BATTERY_TEMP_HIGH_ALARM then 2 else 0 }
          hardware_version := "SBMS0 " ++ Nat.repr cell_count ++ " cells" })

/-- Modelled from the spec: the initial field values are set by the
`Battery` base class (`battery.py`, not in the sources); cell count starts
unset (falsy) and no reading fields are populated before the first frame. -/
def initState : SbmsState :=
  { cell_count := 0
    cells := []
    soc := 0
    voltage := 0
    current := 0
    temp1 := 0
    temp2 := 0
    charge_fet := false
    discharge_fet := false
    protection :=
      { voltage_high := 0, voltage_low := 0, voltage_cell_low := 0, soc_low := 0
        current_over := 0, current_under := 0, cell_imbalance := 0
        internal_failure := 0, temp_high_charge := 0, temp_low_charge := 0
        temp_high_discharge := 0, temp_low_discharge := 0 }
    hardware_version := "" }

/-- State reached after a call, whether it returned or raised. -/
def afterCall (r : Except SbmsState (Bool × SbmsState)) : SbmsState :=
  match r with
  | .ok p => p.2
  | .error s => s

/-- A 59-character test frame: every character is `'#'` (code 35, digit 0)
except offset 28, which is `'0'` (code 48) so the current field parses
(`float("0" + "0") = 0.0`).  Every base-91 field decodes to 0. -/
def baseFrame : List ℕ := (List.range 59).map fun j => if j = 28 then 48 else 35

/-- Test frame whose slot-0 cell voltage decodes to 1 (0.001 V), all other
cell slots zero. -/
def frameSlot0 : List ℕ := baseFrame.set 9 36

/-- Test frame whose slot-1 cell voltage decodes to 1 (0.001 V), all other
cell slots (slot 0 included) zero. -/
def frameSlot1 : List ℕ := baseFrame.set 11 36

/-- Test frame with slots 0, 1 and 7 at 0.001 V each, other slots zero. -/
def frameSlots017 : List ℕ := (baseFrame.set 9 36).set 11 36 |>.set 23 36

/-- Test frame with slot 0 decoding to 3000 (3.000 V) and slot 1 to 3051
(3.051 V): a 51 mV cell-voltage delta. -/
def frameDelta51 : List ℕ :=
  (((baseFrame.set 8 67).set 9 123).set 10 68).set 11 83

/-- Test frame whose status-flags field (offset 56, 3 chars) decodes to
`2^12 + 2^14 = 20480` (digits 2, 43, 5 base 91: codes 37, 78, 40). -/
def frameFets : List ℕ := ((baseFrame.set 56 37).set 57 78).set 58 40

/-- Test frame with `'-'` at offset 28 and current magnitude decoding to 500
(digits 0, 5, 45: codes 35, 40, 80). -/
def frameNeg500 : List ℕ := (((baseFrame.set 28 45).set 29 35).set 30 40).set 31 80

/-- Test frame with the no-sign digit `'0'` at offset 28 and current
magnitude decoding to 500. -/
def framePos500 : List ℕ := ((baseFrame.set 29 35).set 30 40).set 31 80

/-- Test frame with the letter `'a'` (code 97) at offset 28: the current
field string `"a" + "500"` does not parse as a number. -/
def frameBadSign : List ℕ := (((baseFrame.set 28 97).set 29 35).set 30 40).set 31 80

/-- Number of the 8 cell slots of a frame whose decoded voltage is positive
(`len([v for v in cell_voltages if v > 0.0])` at source line 122, expressed
over the raw decodes: `raw / 1000 > 0` iff `raw > 0`). -/
def positiveSlots (line : List ℕ) : ℕ :=
  ((List.range SBMS_CELL_COUNT_MAX).filter fun cell => 0 < dcmp line (8 + cell * 2) 2).length

/-- Formalisation of the claim's pack-voltage rule, for comparison with the
source: the sum of the voltages currently recorded in the cell slots
(slots never written contribute nothing). -/
def recordedVoltageSum (cells : List (Option ℚ)) : ℚ :=
  (cells.filterMap id).sum

/-- Modelled from the spec: §8's round-trip law presumes "an encoder ...
implemented as the inverse of §4.1".  `encodeVal v n` renders `v` as `n`
base-91 digits, most-significant first, each digit `d` stored as the
character of code `d + 35`. -/
def encodeVal : ℕ → ℕ → List ℕ
  | _, 0 => []
  | v, n + 1 => encodeVal (v / 91) n ++ [v % 91 + 35]

/-! ## Helper lemmas -/

/-- A left fold of accumulated additions over `List.range` is a
`Finset.range` sum. -/
theorem foldl_range_add (f : ℕ → ℤ) (n : ℕ) :
    (List.range n).foldl (fun a i => a + f i) 0 = ∑ i ∈ Finset.range n, f i := by
  induction n with
  | zero => simp
  | succ n ih =>
    rw [List.range_succ, List.foldl_append, ih, Finset.sum_range_succ]
    simp

/-- The field codec as a sum over digit positions (indices read through
`getD`, with default 0 for the out-of-range case). -/
theorem dcmp_eq_sum (comp : List ℕ) (pos size : ℕ) :
    dcmp comp pos size
      = ∑ i ∈ Finset.range size,
          ((comp.getD (pos + size - 1 - i) 0 : ℤ) - 35) * 91 ^ i := by
  unfold dcmp
  exact foldl_range_add _ size

/-- A decoded field is nonnegative when every character of the slice has
code at least 35. -/
theorem dcmp_nonneg (comp : List ℕ) (pos size : ℕ)
    (h : ∀ i < size, 35 ≤ comp.getD (pos + size - 1 - i) 0) :
    0 ≤ dcmp comp pos size := by
  rw [dcmp_eq_sum]
  refine Finset.sum_nonneg fun i hi => ?_
  have hc := h i (Finset.mem_range.mp hi)
  have h35 : (35 : ℤ) ≤ (comp.getD (pos + size - 1 - i) 0 : ℤ) := by exact_mod_cast hc
  have hpow : (0 : ℤ) ≤ 91 ^ i := by positivity
  have : (0 : ℤ) ≤ (comp.getD (pos + size - 1 - i) 0 : ℤ) - 35 := by omega
  exact mul_nonneg this hpow

/-- The Python bit test `bool(flags & pow(2, i))` agrees with `Nat.testBit`
on nonnegative flag words. -/
theorem statusFlag_eq_testBit (m : ℕ) (i : ℕ) :
    statusFlag (m : ℤ) i = m.testBit i := by
  unfold statusFlag
  rw [Nat.testBit_to_div_mod]
  have h1 : ((2 : ℤ) ^ i) = ((2 ^ i : ℕ) : ℤ) := by push_cast; ring
  have h2 : Int.emod ((m / 2 ^ i : ℕ) : ℤ) 2 = ((m / 2 ^ i % 2 : ℕ) : ℤ) := by
    show ((m / 2 ^ i : ℕ) : ℤ) % 2 = ((m / 2 ^ i % 2 : ℕ) : ℤ)
    push_cast; ring
  rw [h1, ← Int.ofNat_fdiv, h2]
  simp only [decide_eq_decide]
  exact_mod_cast Iff.rfl

/-- Peeling the least-significant (highest-index) character off a decode. -/
theorem dcmp_append_singleton (l : List ℕ) (c n : ℕ) (hl : l.length = n) :
    dcmp (l ++ [c]) 0 (n + 1) = ((c : ℤ) - 35) + 91 * dcmp l 0 n := by
  rw [dcmp_eq_sum, dcmp_eq_sum, Finset.sum_range_succ']
  have h0 : (l ++ [c]).getD (0 + (n + 1) - 1 - 0) 0 = c := by
    have : 0 + (n + 1) - 1 - 0 = n := by omega
    rw [this]
    rw [List.getD_append_right _ _ _ _ (by omega)]
    simp [hl]
  have hstep : ∀ i ∈ Finset.range n,
      (((l ++ [c]).getD (0 + (n + 1) - 1 - (i + 1)) 0 : ℤ) - 35) * 91 ^ (i + 1)
        = 91 * ((((l.getD (0 + n - 1 - i) 0 : ℕ) : ℤ) - 35) * 91 ^ i) := by
    intro i hi
    have hi' : i < n := Finset.mem_range.mp hi
    have hidx : 0 + (n + 1) - 1 - (i + 1) = 0 + n - 1 - i := by omega
    have hlt : 0 + n - 1 - i < l.length := by omega
    rw [hidx, List.getD_append _ _ _ _ hlt]
    ring
  rw [Finset.sum_congr rfl hstep, ← Finset.mul_sum, h0]
  ring

/-- The encoder always produces the requested width. -/
theorem encodeVal_length (v n : ℕ) : (encodeVal v n).length = n := by
  induction n generalizing v with
  | zero => rfl
  | succ n ih => simp [encodeVal, ih]

/-- Unfolding of the interpreter on a frame of the right length whose
current field parses: the call returns `True` with every field updated as
in source lines 118-157. -/
theorem process_ok (s : SbmsState) (line : List ℕ) (q : ℚ)
    (h59 : line.length = 59)
    (hp : parseSigned (line.getD 28 0) (dcmp line 29 3) = some q) :
    process_status_data s line = .ok (true,
      let cell_voltages := cellVoltages line
      let cell_count :=
        if s.cell_count = 0 then (cell_voltages.filter fun v => 0 < v).length
        else s.cell_count
      let cells := List.zipWith (fun c v => if 0 < v then some v else c)
        (if s.cell_count = 0 then List.replicate SBMS_CELL_COUNT_MAX none else s.cells)
        cell_voltages
      let delta := get_max_cell_voltage cells - get_min_cell_voltage cells
      let flags := dcmp line 56 3
      let soc := dcmp line 6 2
      let temp1 := ((dcmp line 24 2 - 450 : ℤ) : ℚ) / 10
      let temp2 := ((dcmp line 26 2 - 450 : ℤ) : ℚ) / 10
      let current := q / 1000
      { cell_count := cell_count
        cells := cells
        soc := soc
        voltage := round3 cell_voltages.sum
        current := current
        temp1 := temp1
        temp2 := temp2
        charge_fet := statusFlag flags 12
        discharge_fet := statusFlag flags 14
        protection :=
          { voltage_high := if statusFlag flags 1 then 2 else 0
            voltage_low := if statusFlag flags 3 then 2 else 0
            voltage_cell_low := if statusFlag flags 10 then 2 else 0
            soc_low :=
              if soc < BATTERY_SOC_ALARM then 2
              else if soc < BATTERY_SOC_WARN then 1 else 0
            current_over := if statusFlag flags 5 then 2 else 0
            current_under := if statusFlag flags 6 then 2 else 0
            cell_imbalance :=
              if BATTERY_CELL_BALANCE_ALARM < delta then 2
              else if BATTERY_CELL_BALANCE_WARN < delta then 1 else 0
            internal_failure := if statusFlag flags 11 ∨ statusFlag flags 9 then 2 else 0
            temp_high_charge :=
              if statusFlag flags 4 ∨
                  (0 < current ∧ BATTERY_TEMP_HIGH_ALARM ≤ get_max_temp temp1 temp2)
              then 2 else 0
            temp_low_charge :=
              if get_min_temp temp1 temp2 ≤ BATTERY_TEMP_HIGH_ALARM then 2 else 0
            temp_high_discharge :=
              if statusFlag flags 4 ∨
                  (0 < current ∧ BATTERY_TEMP_HIGH_ALARM ≤ get_max_temp temp1 temp2)
              then 2 else 0
            temp_low_discharge :=
              if get_min_temp temp1 temp2 ≤ BATTERY_TEMP_HIGH_ALARM then 2 else 0 }
        hardware_version := "SBMS0 " ++ Nat.repr cell_count ++ " cells" }) := by
  unfold process_status_data
  rw [hp]
  simp [LENGTH_FIXED, h59]

/-- A `'-'` sign character negates a nonnegative magnitude. -/
theorem parseSigned_minus (mag : ℤ) (h : 0 ≤ mag) :
    parseSigned 45 mag = some (-(mag : ℚ)) := by
  simp [parseSigned, h]

/-- A leading `'0'` digit leaves a nonnegative magnitude unchanged
(`float("0" + str(mag)) = mag`). -/
theorem parseSigned_zero_digit (mag : ℤ) (h : 0 ≤ mag) :
    parseSigned 48 mag = some (mag : ℚ) := by
  simp [parseSigned, h]

/-- A letter (`'a'`, code 97) at the sign position makes the parse fail. -/
theorem parseSigned_letter (mag : ℤ) : parseSigned 97 mag = none := by
  by_cases h : 0 ≤ mag <;> simp [parseSigned, h]

/-! ## C2: length mismatch returns False and leaves the state untouched -/

/-- Shared unfolding of the early-return branch of source lines 115-116. -/
theorem process_length_ne (s : SbmsState) (line : List ℕ)
    (h : line.length ≠ 59) :
    process_status_data s line = .ok (false, s) := by
  unfold process_status_data
  rw [if_pos (show line.length ≠ LENGTH_FIXED from h)]

/-- C2: on any input whose length is not 59, `process_status_data` returns
`False` (the LengthMismatch failure) with the interpreter state exactly as
it was: no field is modified. -/
theorem interpret_length_mismatch (s : SbmsState) (line : List ℕ)
    (h : line.length ≠ 59) :
    process_status_data s line = .ok (false, s) :=
  process_length_ne s line h

/-- Witness for C2 at the empty frame. -/
theorem interpret_length_mismatch_witness :
    (([] : List ℕ).length ≠ 59) ∧
    process_status_data initState [] = .ok (false, initState) :=
  ⟨by decide, interpret_length_mismatch initState [] (by decide)⟩

/-! ## C1: the field codec computes the base-91 weighted sum -/

/-- C1: for every frame, position `pos` and `size` with
`pos + size ≤ length(frame)`, `dcmp(frame, pos, size)` returns
`Σ over i in [0,size) of (code at index pos+size-1-i − 35) × 91^i`: the
character at the highest index of the slice is the least-significant
base-91 digit. -/
theorem dcmp_decodes_base91 (comp : List ℕ) (pos size : ℕ)
    (h : pos + size ≤ comp.length) :
    dcmp comp pos size
      = ∑ i : Fin size,
          (((comp.get ⟨pos + size - 1 - i.1, by have := i.2; omega⟩ : ℕ) : ℤ) - 35)
            * 91 ^ i.1 := by
  rw [dcmp_eq_sum, Finset.sum_range fun i =>
    ((comp.getD (pos + size - 1 - i) 0 : ℤ) - 35) * 91 ^ i]
  refine Finset.sum_congr rfl fun i _ => ?_
  have hlt : pos + size - 1 - i.1 < comp.length := by have := i.2; omega
  congr 2
  rw [List.getD_eq_getElem _ _ hlt]
  simp

/-- Witness for C1 at the concrete slice `[40, 80]` (digits 5, 45):
the decode is `5 × 91 + 45 = 500`. -/
theorem dcmp_decodes_base91_witness :
    ((0 : ℕ) + 2 ≤ ([40, 80] : List ℕ).length) ∧
    (dcmp [40, 80] 0 2
      = ∑ i : Fin 2,
          (((([40, 80] : List ℕ).get
              ⟨0 + 2 - 1 - i.1, by have := i.2; show 0 + 2 - 1 - i.1 < 2; omega⟩ : ℕ) : ℤ) - 35)
            * 91 ^ i.1) ∧
    dcmp [40, 80] 0 2 = 500 :=
  ⟨by decide, dcmp_decodes_base91 [40, 80] 0 2 (by decide), by decide⟩

/-! ## Helpers about cell-voltage extraction and slot update -/

/-- The decoded cell-voltage list always has 8 entries. -/
theorem cellVoltages_length (line : List ℕ) : (cellVoltages line).length = 8 := by
  simp [cellVoltages, SBMS_CELL_COUNT_MAX]

/-- Entry `k` of the decoded cell-voltage list. -/
theorem cellVoltages_getD (line : List ℕ) (k : ℕ) (hk : k < 8) :
    (cellVoltages line).getD k 0 = ((dcmp line (8 + k * 2) 2 : ℤ) : ℚ) / 1000 := by
  rw [List.getD_eq_getElem _ _ (by rw [cellVoltages_length]; exact hk)]
  simp [cellVoltages]

/-- A decoded voltage `raw / 1000` is positive exactly when `raw` is. -/
theorem decoded_voltage_pos (z : ℤ) : (0 < ((z : ℤ) : ℚ) / 1000) ↔ 0 < z := by
  rw [lt_div_iff₀ (by norm_num : (0 : ℚ) < 1000), zero_mul, Int.cast_pos]

/-- Counting the positive entries of the decoded voltage list is
`positiveSlots`. -/
theorem filter_cellVoltages_length (line : List ℕ) :
    ((cellVoltages line).filter fun v => 0 < v).length = positiveSlots line := by
  unfold cellVoltages positiveSlots
  rw [List.filter_map, List.length_map]
  congr 1
  refine List.filter_congr fun cell _ => ?_
  simp [decoded_voltage_pos]

/-- Slot `k` after the cell-update loop of source lines 123-125. -/
theorem getD_update_slots (cells0 : List (Option ℚ)) (vs : List ℚ) (k : ℕ)
    (hk : k < vs.length) (hl : vs.length ≤ cells0.length) :
    (List.zipWith (fun c v => if 0 < v then some v else c) cells0 vs).getD k none
      = if 0 < vs.getD k 0 then some (vs.getD k 0) else cells0.getD k none := by
  have hkz : k < (List.zipWith (fun c v => if 0 < v then some v else c) cells0 vs).length := by
    rw [List.length_zipWith]
    exact lt_min (lt_of_lt_of_le hk hl) hk
  rw [List.getD_eq_getElem _ _ hkz, List.getElem_zipWith,
    List.getD_eq_getElem _ _ hk, List.getD_eq_getElem _ _ (lt_of_lt_of_le hk hl)]

/-- The new cell count after any call on a frame of the right length:
re-inferred (count of positive decodes) when the stored count is
unset-or-zero, kept otherwise.  This covers both the normal return and the
raising branch, which assign `cell_count` before line 134. -/
theorem cell_count_step (s : SbmsState) (line : List ℕ) (h59 : line.length = 59) :
    (afterCall (process_status_data s line)).cell_count
      = if s.cell_count = 0 then positiveSlots line else s.cell_count := by
  unfold process_status_data
  rw [if_neg (show ¬line.length ≠ LENGTH_FIXED by simp [LENGTH_FIXED, h59])]
  cases hps : parseSigned (line.getD 28 0) (dcmp line 29 3) with
  | none => simp [afterCall, filter_cellVoltages_length]
  | some q => simp [afterCall, filter_cellVoltages_length]

/-! ## Concrete current-field parses of the test frames -/

/-- The base test frame's current field parses (sign char `'0'`, magnitude 0). -/
theorem parse_baseFrame :
    parseSigned (baseFrame.getD 28 0) (dcmp baseFrame 29 3) = some ((0 : ℤ) : ℚ) := by
  rw [show baseFrame.getD 28 0 = 48 from by decide,
    show dcmp baseFrame 29 3 = 0 from by decide]
  exact parseSigned_zero_digit 0 le_rfl

/-- The slot-0 test frame's current field parses. -/
theorem parse_frameSlot0 :
    parseSigned (frameSlot0.getD 28 0) (dcmp frameSlot0 29 3) = some ((0 : ℤ) : ℚ) := by
  rw [show frameSlot0.getD 28 0 = 48 from by decide,
    show dcmp frameSlot0 29 3 = 0 from by decide]
  exact parseSigned_zero_digit 0 le_rfl

/-- The slot-1 test frame's current field parses. -/
theorem parse_frameSlot1 :
    parseSigned (frameSlot1.getD 28 0) (dcmp frameSlot1 29 3) = some ((0 : ℤ) : ℚ) := by
  rw [show frameSlot1.getD 28 0 = 48 from by decide,
    show dcmp frameSlot1 29 3 = 0 from by decide]
  exact parseSigned_zero_digit 0 le_rfl

/-- The 51 mV-delta test frame's current field parses. -/
theorem parse_frameDelta51 :
    parseSigned (frameDelta51.getD 28 0) (dcmp frameDelta51 29 3) = some ((0 : ℤ) : ℚ) := by
  rw [show frameDelta51.getD 28 0 = 48 from by decide,
    show dcmp frameDelta51 29 3 = 0 from by decide]
  exact parseSigned_zero_digit 0 le_rfl

/-- The FET-flags test frame's current field parses. -/
theorem parse_frameFets :
    parseSigned (frameFets.getD 28 0) (dcmp frameFets 29 3) = some ((0 : ℤ) : ℚ) := by
  rw [show frameFets.getD 28 0 = 48 from by decide,
    show dcmp frameFets 29 3 = 0 from by decide]
  exact parseSigned_zero_digit 0 le_rfl

/-- The negative-current test frame parses to −500. -/
theorem parse_frameNeg500 :
    parseSigned (frameNeg500.getD 28 0) (dcmp frameNeg500 29 3)
      = some (-((500 : ℤ) : ℚ)) := by
  rw [show frameNeg500.getD 28 0 = 45 from by decide,
    show dcmp frameNeg500 29 3 = 500 from by decide]
  exact parseSigned_minus 500 (by decide)

/-- The no-sign-current test frame parses to 500. -/
theorem parse_framePos500 :
    parseSigned (framePos500.getD 28 0) (dcmp framePos500 29 3)
      = some ((500 : ℤ) : ℚ) := by
  rw [show framePos500.getD 28 0 = 48 from by decide,
    show dcmp framePos500 29 3 = 500 from by decide]
  exact parseSigned_zero_digit 500 (by decide)

/-- The bad-sign test frame's current field does not parse. -/
theorem parse_frameBadSign :
    parseSigned (frameBadSign.getD 28 0) (dcmp frameBadSign 29 3) = none := by
  rw [show frameBadSign.getD 28 0 = 97 from by decide]
  exact parseSigned_letter _

/-! ## C4: cell-count inference -/

/-- C4 (amended): on a frame that passes the length-59 check, cell-count
inference runs exactly when the stored cell count is unset-or-zero (the
source's falsy test `if not self.cell_count`), setting it to the number of
the 8 slots whose decoded voltage is strictly positive; once the stored
count is nonzero it is unchanged by every later frame, even when a
previously-zero slot decodes to a nonzero voltage. -/
theorem cell_count_inference (s : SbmsState) (line : List ℕ) (h59 : line.length = 59) :
    (s.cell_count = 0 →
      (afterCall (process_status_data s line)).cell_count = positiveSlots line) ∧
    (s.cell_count ≠ 0 →
      (afterCall (process_status_data s line)).cell_count = s.cell_count) := by
  constructor
  · intro h0
    rw [cell_count_step s line h59, if_pos h0]
  · intro h0
    rw [cell_count_step s line h59, if_neg h0]

/-- Witness for C4 at the spec's synthetic frame with slots 0, 1, 7
nonzero: the inferred count is 3. -/
theorem cell_count_inference_witness :
    (frameSlots017.length = 59) ∧
    ((initState.cell_count = 0 →
       (afterCall (process_status_data initState frameSlots017)).cell_count
         = positiveSlots frameSlots017) ∧
     (initState.cell_count ≠ 0 →
       (afterCall (process_status_data initState frameSlots017)).cell_count
         = initState.cell_count)) ∧
    positiveSlots frameSlots017 = 3 :=
  ⟨by decide, cell_count_inference initState frameSlots017 (by decide), by decide⟩

/-- C4 counterexample: a first valid frame whose cell voltages all decode
to zero sets `cell_count = 0`, which is falsy, so the next valid frame
re-infers and changes the count to 1 — inference is not "exactly once on
the first frame that passes the length check". -/
theorem cell_count_reinference_ctex :
    (process_status_data initState baseFrame).isOk = true ∧
    (afterCall (process_status_data initState baseFrame)).cell_count = 0 ∧
    (process_status_data (afterCall (process_status_data initState baseFrame))
        frameSlot0).isOk = true ∧
    (afterCall (process_status_data (afterCall (process_status_data initState baseFrame))
        frameSlot0)).cell_count = 1 := by
  have hA : (afterCall (process_status_data initState baseFrame)).cell_count = 0 := by
    rw [cell_count_step initState baseFrame (by decide),
      if_pos (show initState.cell_count = 0 from rfl)]
    decide
  refine ⟨?_, hA, ?_, ?_⟩
  · rw [process_ok initState baseFrame ((0 : ℤ) : ℚ) (by decide) parse_baseFrame]
    rfl
  · rw [process_ok _ frameSlot0 ((0 : ℤ) : ℚ) (by decide) parse_frameSlot0]
    rfl
  · rw [cell_count_step _ frameSlot0 (by decide), if_pos hA]
    decide

/-! ## C6: current field decoding -/

/-- C6: the current output is the parse of the literal character at offset
28 concatenated with the decimal rendering of the base-91 decode at offset
29 (size 3), divided by 1000: with a `'-'` sign it is minus the magnitude
over 1000 (−0.5 A at magnitude 500), and with the no-sign digit `'0'` it is
the magnitude over 1000 (+0.5 A at magnitude 500). -/
theorem current_sign_parsing (s : SbmsState) (line : List ℕ) (q : ℚ)
    (h59 : line.length = 59)
    (hp : parseSigned (line.getD 28 0) (dcmp line 29 3) = some q) :
    ∃ t, process_status_data s line = .ok (true, t) ∧
      t.current = q / 1000 ∧
      (line.getD 28 0 = 45 → 0 ≤ dcmp line 29 3 →
        t.current = -((dcmp line 29 3 : ℤ) : ℚ) / 1000) ∧
      (line.getD 28 0 = 48 → 0 ≤ dcmp line 29 3 →
        t.current = ((dcmp line 29 3 : ℤ) : ℚ) / 1000) ∧
      (line.getD 28 0 = 45 → dcmp line 29 3 = 500 → t.current = -(1/2)) ∧
      (line.getD 28 0 = 48 → dcmp line 29 3 = 500 → t.current = 1/2) := by
  refine ⟨_, process_ok s line q h59 hp, rfl, ?_, ?_, ?_, ?_⟩
  · intro hc hm
    rw [hc, parseSigned_minus _ hm] at hp
    have h2 := Option.some.inj hp
    show q / 1000 = -((dcmp line 29 3 : ℤ) : ℚ) / 1000
    rw [← h2, neg_div]
  · intro hc hm
    rw [hc, parseSigned_zero_digit _ hm] at hp
    have h2 := Option.some.inj hp
    show q / 1000 = ((dcmp line 29 3 : ℤ) : ℚ) / 1000
    rw [← h2]
  · intro hc hm
    rw [hc, hm, parseSigned_minus 500 (by decide)] at hp
    have h2 := Option.some.inj hp
    show q / 1000 = -(1 / 2)
    rw [← h2]
    norm_num
  · intro hc hm
    rw [hc, hm, parseSigned_zero_digit 500 (by decide)] at hp
    have h2 := Option.some.inj hp
    show q / 1000 = 1 / 2
    rw [← h2]
    norm_num

/-- Witness for C6 at the `'-'`/magnitude-500 test frame: current −0.5 A. -/
theorem current_sign_parsing_witness :
    (frameNeg500.length = 59 ∧
     parseSigned (frameNeg500.getD 28 0) (dcmp frameNeg500 29 3)
       = some (-((500 : ℤ) : ℚ)) ∧
     frameNeg500.getD 28 0 = 45 ∧ dcmp frameNeg500 29 3 = 500) ∧
    (∃ t, process_status_data initState frameNeg500 = .ok (true, t) ∧
      t.current = -((500 : ℤ) : ℚ) / 1000 ∧
      (frameNeg500.getD 28 0 = 45 → 0 ≤ dcmp frameNeg500 29 3 →
        t.current = -((dcmp frameNeg500 29 3 : ℤ) : ℚ) / 1000) ∧
      (frameNeg500.getD 28 0 = 48 → 0 ≤ dcmp frameNeg500 29 3 →
        t.current = ((dcmp frameNeg500 29 3 : ℤ) : ℚ) / 1000) ∧
      (frameNeg500.getD 28 0 = 45 → dcmp frameNeg500 29 3 = 500 → t.current = -(1 / 2)) ∧
      (frameNeg500.getD 28 0 = 48 → dcmp frameNeg500 29 3 = 500 → t.current = 1 / 2)) :=
  ⟨⟨by decide, parse_frameNeg500, by decide, by decide⟩,
   current_sign_parsing initState frameNeg500 (-((500 : ℤ) : ℚ)) (by decide) parse_frameNeg500⟩

/-! ## C7: status-flag extraction -/

/-- C7: each of the 15 status flags (order OV, OVLK, UV, UVLK, IOT, COC,
DOC, DSC, CELF, OPEN, LVC, ECCF, CFET, EOC, DFET) is set iff bit `i` of the
base-91 decode of the 3-character field at offset 56 is 1; the FET outputs
pass through bits 12 (CFET) and 14 (DFET), and a flags value of
`2^12 + 2^14` yields both FETs true and every other flag false. -/
theorem status_flag_bits (s : SbmsState) (line : List ℕ) (q : ℚ)
    (h59 : line.length = 59)
    (hp : parseSigned (line.getD 28 0) (dcmp line 29 3) = some q)
    (hc : ∀ i < 3, 35 ≤ line.getD (56 + 3 - 1 - i) 0) :
    ∃ t, process_status_data s line = .ok (true, t) ∧
      (∀ i : ℕ, statusFlag (dcmp line 56 3) i = (dcmp line 56 3).toNat.testBit i) ∧
      t.charge_fet = (dcmp line 56 3).toNat.testBit 12 ∧
      t.discharge_fet = (dcmp line 56 3).toNat.testBit 14 ∧
      (dcmp line 56 3 = 2 ^ 12 + 2 ^ 14 →
        t.charge_fet = true ∧ t.discharge_fet = true ∧
        ∀ j < 15, j ≠ 12 → j ≠ 14 → statusFlag (dcmp line 56 3) j = false) := by
  have hnn : 0 ≤ dcmp line 56 3 := dcmp_nonneg line 56 3 hc
  have hbit : ∀ i : ℕ, statusFlag (dcmp line 56 3) i = (dcmp line 56 3).toNat.testBit i := by
    intro i
    have hm : dcmp line 56 3 = ((dcmp line 56 3).toNat : ℤ) := (Int.toNat_of_nonneg hnn).symm
    rw [hm, Int.toNat_natCast, statusFlag_eq_testBit]
  refine ⟨_, process_ok s line q h59 hp, hbit, hbit 12, hbit 14, ?_⟩
  intro h20
  have hm20 : (dcmp line 56 3).toNat = 20480 := by rw [h20]; rfl
  have hall : ∀ j, j < 15 → j ≠ 12 → j ≠ 14 → Nat.testBit 20480 j = false := by decide
  refine ⟨?_, ?_, ?_⟩
  · show statusFlag (dcmp line 56 3) 12 = true
    rw [hbit 12, hm20]
    decide
  · show statusFlag (dcmp line 56 3) 14 = true
    rw [hbit 14, hm20]
    decide
  · intro j hj h12 h14
    rw [hbit j, hm20]
    exact hall j hj h12 h14

/-- Witness for C7 at the frame whose flags field decodes to
`2^12 + 2^14 = 20480`. -/
theorem status_flag_bits_witness :
    (frameFets.length = 59 ∧ (∀ i < 3, 35 ≤ frameFets.getD (56 + 3 - 1 - i) 0) ∧
     dcmp frameFets 56 3 = 2 ^ 12 + 2 ^ 14) ∧
    (∃ t, process_status_data initState frameFets = .ok (true, t) ∧
      (∀ i : ℕ, statusFlag (dcmp frameFets 56 3) i
        = (dcmp frameFets 56 3).toNat.testBit i) ∧
      t.charge_fet = (dcmp frameFets 56 3).toNat.testBit 12 ∧
      t.discharge_fet = (dcmp frameFets 56 3).toNat.testBit 14 ∧
      (dcmp frameFets 56 3 = 2 ^ 12 + 2 ^ 14 →
        t.charge_fet = true ∧ t.discharge_fet = true ∧
        ∀ j < 15, j ≠ 12 → j ≠ 14 → statusFlag (dcmp frameFets 56 3) j = false)) :=
  ⟨⟨by decide, by decide, by decide⟩,
   status_flag_bits initState frameFets ((0 : ℤ) : ℚ) (by decide) parse_frameFets (by decide)⟩

/-! ## C8: temperatures and the low-temperature protections -/

/-- C8: `temp1 = (decode(24,2) − 450)/10`, `temp2 = (decode(26,2) − 450)/10`,
and both `temp_low_charge` and `temp_low_discharge` are 2 iff
`min(temp1, temp2) ≤ 40` (the same `BATTERY_TEMP_HIGH_ALARM = 40` the
high-temperature rules use) and 0 otherwise. -/
theorem temperature_fields (s : SbmsState) (line : List ℕ) (q : ℚ)
    (h59 : line.length = 59)
    (hp : parseSigned (line.getD 28 0) (dcmp line 29 3) = some q) :
    ∃ t, process_status_data s line = .ok (true, t) ∧
      t.temp1 = ((dcmp line 24 2 - 450 : ℤ) : ℚ) / 10 ∧
      t.temp2 = ((dcmp line 26 2 - 450 : ℤ) : ℚ) / 10 ∧
      t.protection.temp_low_charge
        = (if min t.temp1 t.temp2 ≤ BATTERY_TEMP_HIGH_ALARM then 2 else 0) ∧
      t.protection.temp_low_discharge
        = (if min t.temp1 t.temp2 ≤ BATTERY_TEMP_HIGH_ALARM then 2 else 0) ∧
      BATTERY_TEMP_HIGH_ALARM = 40 :=
  ⟨_, process_ok s line q h59 hp, rfl, rfl, rfl, rfl, rfl⟩

/-- Witness for C8 at the base test frame (both raw temperature fields 0,
so both temperatures are −45 °C). -/
theorem temperature_fields_witness :
    (baseFrame.length = 59 ∧ dcmp baseFrame 24 2 = 0 ∧ dcmp baseFrame 26 2 = 0) ∧
    (∃ t, process_status_data initState baseFrame = .ok (true, t) ∧
      t.temp1 = ((dcmp baseFrame 24 2 - 450 : ℤ) : ℚ) / 10 ∧
      t.temp2 = ((dcmp baseFrame 26 2 - 450 : ℤ) : ℚ) / 10 ∧
      t.protection.temp_low_charge
        = (if min t.temp1 t.temp2 ≤ BATTERY_TEMP_HIGH_ALARM then 2 else 0) ∧
      t.protection.temp_low_discharge
        = (if min t.temp1 t.temp2 ≤ BATTERY_TEMP_HIGH_ALARM then 2 else 0) ∧
      BATTERY_TEMP_HIGH_ALARM = 40) :=
  ⟨⟨by decide, by decide, by decide⟩,
   temperature_fields initState baseFrame ((0 : ℤ) : ℚ) (by decide) parse_baseFrame⟩

/-! ## C5: pack voltage and the slot-overwrite rule -/

/-- C5 (amended): the pack voltage equals the sum of this frame's eight
decoded cell voltages (slots decoding to zero contribute zero; voltages
retained in the slots from earlier frames are not part of the sum), rounded
to 3 decimals; a slot's recorded voltage is overwritten exactly when the
frame's decoded value for it is strictly positive, and kept otherwise. -/
theorem pack_voltage_rule (s : SbmsState) (line : List ℕ) (q : ℚ)
    (h59 : line.length = 59)
    (hp : parseSigned (line.getD 28 0) (dcmp line 29 3) = some q)
    (hcells : s.cell_count = 0 ∨ s.cells.length = 8) :
    ∃ t, process_status_data s line = .ok (true, t) ∧
      t.voltage = round3 (cellVoltages line).sum ∧
      ∀ k < 8,
        t.cells.getD k none
          = if 0 < dcmp line (8 + k * 2) 2
            then some (((dcmp line (8 + k * 2) 2 : ℤ) : ℚ) / 1000)
            else if s.cell_count = 0 then none else s.cells.getD k none := by
  refine ⟨_, process_ok s line q h59 hp, rfl, ?_⟩
  intro k hk
  show (List.zipWith (fun c v => if 0 < v then some v else c)
      (if s.cell_count = 0 then List.replicate SBMS_CELL_COUNT_MAX none else s.cells)
      (cellVoltages line)).getD k none = _
  rw [getD_update_slots _ _ k (by rw [cellVoltages_length]; exact hk)
    (by
      rw [cellVoltages_length]
      by_cases h0 : s.cell_count = 0
      · rw [if_pos h0]
        simp [SBMS_CELL_COUNT_MAX]
      · rcases hcells with h | h
        · exact absurd h h0
        · rw [if_neg h0, h]),
    cellVoltages_getD line k hk]
  by_cases hz : 0 < dcmp line (8 + k * 2) 2
  · rw [if_pos ((decoded_voltage_pos _).mpr hz), if_pos hz]
  · rw [if_neg (fun hlt => hz ((decoded_voltage_pos _).mp hlt)), if_neg hz]
    by_cases h0 : s.cell_count = 0
    · rw [if_pos h0, if_pos h0,
        List.getD_eq_getElem _ _ (by simp [SBMS_CELL_COUNT_MAX]; exact hk)]
      simp
    · rw [if_neg h0, if_neg h0]

/-- Witness for C5 at the slot-0 test frame from the initial state. -/
theorem pack_voltage_rule_witness :
    (frameSlot0.length = 59 ∧
     parseSigned (frameSlot0.getD 28 0) (dcmp frameSlot0 29 3) = some ((0 : ℤ) : ℚ) ∧
     (initState.cell_count = 0 ∨ initState.cells.length = 8)) ∧
    (∃ t, process_status_data initState frameSlot0 = .ok (true, t) ∧
      t.voltage = round3 (cellVoltages frameSlot0).sum ∧
      ∀ k < 8,
        t.cells.getD k none
          = if 0 < dcmp frameSlot0 (8 + k * 2) 2
            then some (((dcmp frameSlot0 (8 + k * 2) 2 : ℤ) : ℚ) / 1000)
            else if initState.cell_count = 0 then none
                 else initState.cells.getD k none) :=
  ⟨⟨by decide, parse_frameSlot0, Or.inl rfl⟩,
   pack_voltage_rule initState frameSlot0 ((0 : ℤ) : ℚ) (by decide) parse_frameSlot0
     (Or.inl rfl)⟩

/-! ## Concrete evaluations of the test frames -/

/-- Decoded voltages of the slot-0 test frame. -/
theorem cellVoltages_frameSlot0 :
    cellVoltages frameSlot0 = [1 / 1000, 0, 0, 0, 0, 0, 0, 0] := by
  unfold cellVoltages SBMS_CELL_COUNT_MAX
  rw [show List.range 8 = [0, 1, 2, 3, 4, 5, 6, 7] from rfl]
  norm_num [show dcmp frameSlot0 8 2 = 1 from by decide,
    show dcmp frameSlot0 10 2 = 0 from by decide,
    show dcmp frameSlot0 12 2 = 0 from by decide,
    show dcmp frameSlot0 14 2 = 0 from by decide,
    show dcmp frameSlot0 16 2 = 0 from by decide,
    show dcmp frameSlot0 18 2 = 0 from by decide,
    show dcmp frameSlot0 20 2 = 0 from by decide,
    show dcmp frameSlot0 22 2 = 0 from by decide]

/-- Decoded voltages of the slot-1 test frame. -/
theorem cellVoltages_frameSlot1 :
    cellVoltages frameSlot1 = [0, 1 / 1000, 0, 0, 0, 0, 0, 0] := by
  unfold cellVoltages SBMS_CELL_COUNT_MAX
  rw [show List.range 8 = [0, 1, 2, 3, 4, 5, 6, 7] from rfl]
  norm_num [show dcmp frameSlot1 8 2 = 0 from by decide,
    show dcmp frameSlot1 10 2 = 1 from by decide,
    show dcmp frameSlot1 12 2 = 0 from by decide,
    show dcmp frameSlot1 14 2 = 0 from by decide,
    show dcmp frameSlot1 16 2 = 0 from by decide,
    show dcmp frameSlot1 18 2 = 0 from by decide,
    show dcmp frameSlot1 20 2 = 0 from by decide,
    show dcmp frameSlot1 22 2 = 0 from by decide]

/-- Decoded voltages of the 51 mV-delta test frame: 3.000 V and 3.051 V. -/
theorem cellVoltages_frameDelta51 :
    cellVoltages frameDelta51 = [3, 3051 / 1000, 0, 0, 0, 0, 0, 0] := by
  unfold cellVoltages SBMS_CELL_COUNT_MAX
  rw [show List.range 8 = [0, 1, 2, 3, 4, 5, 6, 7] from rfl]
  norm_num [show dcmp frameDelta51 8 2 = 3000 from by decide,
    show dcmp frameDelta51 10 2 = 3051 from by decide,
    show dcmp frameDelta51 12 2 = 0 from by decide,
    show dcmp frameDelta51 14 2 = 0 from by decide,
    show dcmp frameDelta51 16 2 = 0 from by decide,
    show dcmp frameDelta51 18 2 = 0 from by decide,
    show dcmp frameDelta51 20 2 = 0 from by decide,
    show dcmp frameDelta51 22 2 = 0 from by decide]

/-- Cell slots after interpreting the slot-0 frame from the initial state. -/
theorem cells_after_frameSlot0 :
    (afterCall (process_status_data initState frameSlot0)).cells
      = [some (1 / 1000), none, none, none, none, none, none, none] := by
  rw [process_ok initState frameSlot0 ((0 : ℤ) : ℚ) (by decide) parse_frameSlot0]
  show List.zipWith (fun c v => if 0 < v then some v else c)
      (if initState.cell_count = 0 then List.replicate SBMS_CELL_COUNT_MAX none
       else initState.cells)
      (cellVoltages frameSlot0) = _
  rw [if_pos (show initState.cell_count = 0 from rfl), cellVoltages_frameSlot0]
  norm_num [SBMS_CELL_COUNT_MAX, List.replicate, List.zipWith]

/-- Cell slots after the slot-0 frame and then the slot-1 frame: slot 0
keeps its recorded 0.001 V although this frame decoded it as 0. -/
theorem cells_after_frameSlot0_frameSlot1 :
    (afterCall (process_status_data (afterCall (process_status_data initState frameSlot0))
        frameSlot1)).cells
      = [some (1 / 1000), some (1 / 1000), none, none, none, none, none, none] := by
  rw [process_ok _ frameSlot1 ((0 : ℤ) : ℚ) (by decide) parse_frameSlot1]
  show List.zipWith (fun c v => if 0 < v then some v else c)
      (if (afterCall (process_status_data initState frameSlot0)).cell_count = 0
       then List.replicate SBMS_CELL_COUNT_MAX none
       else (afterCall (process_status_data initState frameSlot0)).cells)
      (cellVoltages frameSlot1) = _
  rw [if_neg (by
      rw [cell_count_step initState frameSlot0 (by decide),
        if_pos (show initState.cell_count = 0 from rfl)]
      decide),
    cells_after_frameSlot0, cellVoltages_frameSlot1]
  norm_num [List.zipWith]

/-- C5 counterexample: after a frame recording slot 0 at 0.001 V and a
second valid frame whose slot 0 decodes to 0 and slot 1 to 0.001 V, the
recorded slots sum to 0.002 V but the pack-voltage output is 0.001 V — the
source sums only this frame's decodes (`sum(cell_voltages)`), not the
recorded cell voltages. -/
theorem pack_voltage_ctex :
    (afterCall (process_status_data (afterCall (process_status_data initState frameSlot0))
        frameSlot1)).voltage = 1 / 1000 ∧
    round3 (recordedVoltageSum
      (afterCall (process_status_data (afterCall (process_status_data initState frameSlot0))
          frameSlot1)).cells) = 1 / 500 ∧
    (afterCall (process_status_data (afterCall (process_status_data initState frameSlot0))
        frameSlot1)).voltage
      ≠ round3 (recordedVoltageSum
          (afterCall (process_status_data (afterCall (process_status_data initState frameSlot0))
              frameSlot1)).cells) := by
  have hv : (afterCall (process_status_data
      (afterCall (process_status_data initState frameSlot0)) frameSlot1)).voltage
      = 1 / 1000 := by
    rw [process_ok _ frameSlot1 ((0 : ℤ) : ℚ) (by decide) parse_frameSlot1]
    show round3 (cellVoltages frameSlot1).sum = _
    rw [cellVoltages_frameSlot1]
    norm_num [round3, round_eq, List.sum_cons]
  have hr : round3 (recordedVoltageSum
      (afterCall (process_status_data (afterCall (process_status_data initState frameSlot0))
          frameSlot1)).cells) = 1 / 500 := by
    rw [cells_after_frameSlot0_frameSlot1]
    unfold recordedVoltageSum
    rw [show List.filterMap id
        [some ((1 : ℚ) / 1000), some (1 / 1000), none, none, none, none, none, none]
        = [1 / 1000, 1 / 1000] from rfl]
    norm_num [round3, round_eq, List.sum_cons]
  exact ⟨hv, hr, by rw [hv, hr]; norm_num⟩

/-! ## C3: the cell-imbalance thresholds compare volts against mV constants -/

/-- C3 evaluation at the failing input: a first valid frame with cell
voltages 3.000 V and 3.051 V (delta 51 mV).  The interpreter's delta is
0.051 (volts), the comparison constants are 50 and 100 (intended as mV), so
`cell_imbalance` is 0 where the claim requires level 1. -/
theorem cell_imbalance_at_51mV :
    get_max_cell_voltage
        (afterCall (process_status_data initState frameDelta51)).cells
      - get_min_cell_voltage
          (afterCall (process_status_data initState frameDelta51)).cells
      = 51 / 1000 ∧
    (afterCall (process_status_data initState frameDelta51)).protection.cell_imbalance
      = 0 := by
  have hcells : (afterCall (process_status_data initState frameDelta51)).cells
      = [some 3, some (3051 / 1000), none, none, none, none, none, none] := by
    rw [process_ok initState frameDelta51 ((0 : ℤ) : ℚ) (by decide) parse_frameDelta51]
    show List.zipWith (fun c v => if 0 < v then some v else c)
        (if initState.cell_count = 0 then List.replicate SBMS_CELL_COUNT_MAX none
         else initState.cells)
        (cellVoltages frameDelta51) = _
    rw [if_pos (show initState.cell_count = 0 from rfl), cellVoltages_frameDelta51]
    norm_num [SBMS_CELL_COUNT_MAX, List.replicate, List.zipWith]
  have hmax : get_max_cell_voltage
      (afterCall (process_status_data initState frameDelta51)).cells = 3051 / 1000 := by
    rw [hcells]
    unfold get_max_cell_voltage
    rw [show List.filterMap id
        [some (3 : ℚ), some (3051 / 1000), none, none, none, none, none, none]
        = [3, 3051 / 1000] from rfl]
    norm_num [max_def]
  have hmin : get_min_cell_voltage
      (afterCall (process_status_data initState frameDelta51)).cells = 3 := by
    rw [hcells]
    unfold get_min_cell_voltage
    rw [show List.filterMap id
        [some (3 : ℚ), some (3051 / 1000), none, none, none, none, none, none]
        = [3, 3051 / 1000] from rfl]
    norm_num [min_def]
  refine ⟨by rw [hmax, hmin]; norm_num, ?_⟩
  have hd : get_max_cell_voltage
        (afterCall (process_status_data initState frameDelta51)).cells
      - get_min_cell_voltage
          (afterCall (process_status_data initState frameDelta51)).cells
      = 51 / 1000 := by rw [hmax, hmin]; norm_num
  rw [process_ok initState frameDelta51 ((0 : ℤ) : ℚ) (by decide) parse_frameDelta51] at hd ⊢
  simp only [afterCall] at hd ⊢
  show (if BATTERY_CELL_BALANCE_ALARM <
      get_max_cell_voltage (List.zipWith (fun c v => if 0 < v then some v else c)
        (if initState.cell_count = 0 then List.replicate SBMS_CELL_COUNT_MAX none
         else initState.cells) (cellVoltages frameDelta51))
      - get_min_cell_voltage (List.zipWith (fun c v => if 0 < v then some v else c)
          (if initState.cell_count = 0 then List.replicate SBMS_CELL_COUNT_MAX none
           else initState.cells) (cellVoltages frameDelta51))
    then (2 : ℤ)
    else if BATTERY_CELL_BALANCE_WARN <
        get_max_cell_voltage (List.zipWith (fun c v => if 0 < v then some v else c)
          (if initState.cell_count = 0 then List.replicate SBMS_CELL_COUNT_MAX none
           else initState.cells) (cellVoltages frameDelta51))
        - get_min_cell_voltage (List.zipWith (fun c v => if 0 < v then some v else c)
            (if initState.cell_count = 0 then List.replicate SBMS_CELL_COUNT_MAX none
             else initState.cells) (cellVoltages frameDelta51))
      then 1 else 0) = 0
  rw [hd]
  norm_num [BATTERY_CELL_BALANCE_ALARM, BATTERY_CELL_BALANCE_WARN]

/-! ## C10: the unguarded current parse -/

/-- C10: interpretation is not total over 59-character frames: on the test
frame with the letter `'a'` at offset 28 the current parse fails and the
call raises (modelled by `Except.error`); conversely the only way a call
can raise is a 59-character frame whose current field fails to parse — the
length comparison is the only guarded failure path. -/
theorem interpret_unguarded_parse_failure :
    (∃ t, process_status_data initState frameBadSign = .error t) ∧
    (∀ s line, (process_status_data s line).isOk = false →
      line.length = 59 ∧ parseSigned (line.getD 28 0) (dcmp line 29 3) = none) := by
  constructor
  · unfold process_status_data
    rw [parse_frameBadSign,
      if_neg (show ¬frameBadSign.length ≠ LENGTH_FIXED by decide)]
    exact ⟨_, rfl⟩
  · intro s line h
    by_cases h59 : line.length = 59
    · refine ⟨h59, ?_⟩
      cases hps : parseSigned (line.getD 28 0) (dcmp line 29 3) with
      | none => rfl
      | some q =>
        rw [process_ok s line q h59 hps] at h
        exact Bool.noConfusion h
    · rw [process_length_ne s line h59] at h
      exact Bool.noConfusion h

/-- Witness for C10: the bad-sign frame has length 59, its current field
fails to parse, and the call indeed does not return normally. -/
theorem interpret_unguarded_parse_failure_witness :
    (process_status_data initState frameBadSign).isOk = false ∧
    frameBadSign.length = 59 ∧
    parseSigned (frameBadSign.getD 28 0) (dcmp frameBadSign 29 3) = none := by
  obtain ⟨t, ht⟩ := interpret_unguarded_parse_failure.1
  have hfalse : (process_status_data initState frameBadSign).isOk = false := by
    rw [ht]
    rfl
  exact ⟨hfalse, interpret_unguarded_parse_failure.2 initState frameBadSign hfalse⟩

/-! ## C9: encode/decode round trip -/

/-- Decoding an encoded value recovers it (value form). -/
theorem dcmp_encodeVal (n v : ℕ) (hv : v < 91 ^ n) :
    dcmp (encodeVal v n) 0 n = v := by
  induction n generalizing v with
  | zero =>
    have : v = 0 := by simpa using hv
    simp [this, encodeVal, dcmp]
  | succ n ih =>
    have hdiv : v / 91 < 91 ^ n := by
      rw [Nat.div_lt_iff_lt_mul (by norm_num)]
      calc v < 91 ^ (n + 1) := hv
        _ = 91 ^ n * 91 := by ring
    rw [show encodeVal v (n + 1) = encodeVal (v / 91) n ++ [v % 91 + 35] from rfl,
      dcmp_append_singleton _ _ _ (encodeVal_length _ _), ih _ hdiv]
    push_cast
    omega

/-- Encoding the decode of a digit string recovers the string (digit form). -/
theorem encodeVal_dcmp (ds : List ℕ) (hd : ∀ d ∈ ds, d ≤ 90) :
    encodeVal (dcmp (ds.map (· + 35)) 0 ds.length).toNat ds.length
      = ds.map (· + 35) := by
  induction ds using List.reverseRecOn with
  | nil => rfl
  | append_singleton ds d ih =>
    have hd' : ∀ x ∈ ds, x ≤ 90 := fun x hx => hd x (by simp [hx])
    have hdle : d ≤ 90 := hd d (by simp)
    have hmap : (ds ++ [d]).map (· + 35) = ds.map (· + 35) ++ [d + 35] := by simp
    have hlen : (ds ++ [d]).length = ds.length + 1 := by simp
    have hnn : 0 ≤ dcmp (ds.map (· + 35)) 0 ds.length := by
      refine dcmp_nonneg _ _ _ fun i hi => ?_
      have hlt : 0 + ds.length - 1 - i < (ds.map (· + 35)).length := by
        simp only [List.length_map]; omega
      rw [List.getD_eq_getElem _ _ hlt]
      simp
    set D := dcmp (ds.map (· + 35)) 0 ds.length with hD
    obtain ⟨m, hm⟩ : ∃ m : ℕ, D = (m : ℤ) := ⟨D.toNat, (Int.toNat_of_nonneg hnn).symm⟩
    have hdec : dcmp ((ds ++ [d]).map (· + 35)) 0 (ds ++ [d]).length
        = ((d + 35 : ℕ) : ℤ) - 35 + 91 * D := by
      rw [hmap, hlen, dcmp_append_singleton _ _ _ (by simp)]
    have hval : (dcmp ((ds ++ [d]).map (· + 35)) 0 (ds ++ [d]).length).toNat
        = d + 91 * m := by
      rw [hdec, hm]
      omega
    rw [hval, hlen,
      show encodeVal (d + 91 * m) (ds.length + 1)
        = encodeVal ((d + 91 * m) / 91) ds.length ++ [(d + 91 * m) % 91 + 35] from rfl]
    have h1 : (d + 91 * m) / 91 = m := by omega
    have h2 : (d + 91 * m) % 91 = d := by omega
    rw [h1, h2, hmap]
    congr 1
    have : m = D.toNat := by omega
    rw [this, hD]
    exact ih hd'

/-- C9: the field codec round-trips against the spec's encoder: encoding a
value `v < 91^n` over `n` digits and decoding gives back `v`, and decoding
an encoded digit string (each digit in [0,90], most-significant first,
stored as code digit+35) then re-encoding reproduces the string exactly. -/
theorem codec_roundtrip :
    (∀ n v : ℕ, v < 91 ^ n → dcmp (encodeVal v n) 0 n = v) ∧
    (∀ ds : List ℕ, (∀ d ∈ ds, d ≤ 90) →
      encodeVal (dcmp (ds.map (· + 35)) 0 ds.length).toNat ds.length
        = ds.map (· + 35)) :=
  ⟨dcmp_encodeVal, encodeVal_dcmp⟩

/-- Witness for C9 at `v = 500`, `n = 3` and at the digit string `[5, 45]`. -/
theorem codec_roundtrip_witness :
    ((500 : ℕ) < 91 ^ 3 ∧ (∀ d ∈ ([5, 45] : List ℕ), d ≤ 90)) ∧
    dcmp (encodeVal 500 3) 0 3 = 500 ∧
    encodeVal (dcmp (([5, 45] : List ℕ).map (· + 35)) 0
        ([5, 45] : List ℕ).length).toNat ([5, 45] : List ℕ).length
      = ([5, 45] : List ℕ).map (· + 35) :=
  ⟨⟨by decide, by decide⟩,
   codec_roundtrip.1 3 500 (by decide),
   codec_roundtrip.2 [5, 45] (by decide)⟩

end Sbms0
